import Mathlib

/-!
A verification development for the ANTAQ natural-language-to-SQL agent.

The development embeds, faithfully and executably, the two components the
specification singles out:

* `SQLValidator` from `src/utils/validation.py`: the normalization pipeline
  (five regex-substitution passes), the forbidden-keyword scan, the
  allowed-statement-start check, the LIMIT enforcer, the injection-pattern
  scan and the WHERE advisory, combined by `SQLValidator.validate`.

* The retry-bounded orchestration state machine from `src/agent/nodes.py`
  and `src/agent/graph.py`: `generate_sql_node`, `validate_sql_node`,
  `execute_sql_node`, the conditional router `should_continue_to_execute`
  and the graph wiring `generate_sql -> validate_sql -> [execute_sql |
  generate_sql | END]`, `execute_sql -> generate_final_answer -> END`.

Strings are modelled as `List Char` (with `String` wrappers), and the
Python regular expressions are compiled by hand into deterministic scanners
that reproduce the leftmost-match, greedy/lazy backtracking behaviour of
the concrete patterns in the source on the character classes they use.
Python semantics modelled explicitly: `str.upper`/`str.lower` on ASCII plus
the Latin accented letters used by the code, the `\b` word boundary
(word characters: ASCII alphanumerics, underscore, accented Latin-1
letters), `str.strip`, `str.rstrip(";")`, `str.split()`, `str.strip("%")`,
truthiness of optional strings, and `re.sub` advancing past each match.
-/

namespace Antaq

/-- The single-quote character, used heavily by the SQL LIKE patterns. -/
def quoteChar : Char := Char.ofNat 39

/-- Python whitespace (`str.strip`, `str.split`, regex `\s`). -/
def isPySpace (c : Char) : Bool :=
  c == ' ' || c == '\t' || c == '\n' || c == '\r' || c == '\x0b' || c == '\x0c'

/-- Lower/upper pairs of the accented Latin letters that occur in the
repository (queries are Brazilian-Portuguese SQL text). -/
def accentCasePairs : List (Char × Char) :=
  [('á', 'Á'), ('à', 'À'), ('â', 'Â'), ('ã', 'Ã'), ('ä', 'Ä'), ('å', 'Å'),
   ('é', 'É'), ('è', 'È'), ('ê', 'Ê'), ('ë', 'Ë'),
   ('í', 'Í'), ('ì', 'Ì'), ('î', 'Î'), ('ï', 'Ï'),
   ('ó', 'Ó'), ('ò', 'Ò'), ('ô', 'Ô'), ('õ', 'Õ'), ('ö', 'Ö'),
   ('ú', 'Ú'), ('ù', 'Ù'), ('û', 'Û'), ('ü', 'Ü'),
   ('ç', 'Ç'), ('ñ', 'Ñ'), ('ý', 'Ý')]

/-- Python `str.lower` restricted to the characters in play. -/
def lowerChar (c : Char) : Char :=
  if c.isUpper then c.toLower
  else
    match accentCasePairs.find? (fun p => p.2 == c) with
    | some p => p.1
    | none => c

/-- Python `str.upper` restricted to the characters in play. -/
def upperChar (c : Char) : Char :=
  if c.isLower then c.toUpper
  else
    match accentCasePairs.find? (fun p => p.1 == c) with
    | some p => p.2
    | none => c

/-- Regex `\w` (word character) for the character set in play: ASCII
alphanumerics, underscore, and the Latin-1 letters (the Latin-1 block
contains letters at 0xC0..0xFF except the two operators 0xD7 and 0xF7). -/
def isWordChar (c : Char) : Bool :=
  c.isAlphanum || c == '_' ||
    (0xC0 ≤ c.toNat && c.toNat ≤ 0xFF && c.toNat != 0xD7 && c.toNat != 0xF7)

/-- Regex class of word-or-dot characters, used by the `porto_atracacao` field regexes. -/
def isWordDot (c : Char) : Bool := isWordChar c || c == '.'

def lowerL (s : List Char) : List Char := s.map lowerChar

def upperL (s : List Char) : List Char := s.map upperChar

/-- Python `str.strip()` on a character list. -/
def pyStripL (s : List Char) : List Char :=
  ((s.dropWhile isPySpace).reverse.dropWhile isPySpace).reverse

/-- Python `str.rstrip(";")`. -/
def rstripSemi (s : List Char) : List Char :=
  (s.reverse.dropWhile (fun c => c == ';')).reverse

/-- Python `str.strip("%")`. -/
def stripPercent (s : List Char) : List Char :=
  ((s.dropWhile (fun c => c == '%')).reverse.dropWhile (fun c => c == '%')).reverse

/-- Consume a literal pattern case-sensitively; return the rest on success. -/
def dropLitCS : List Char → List Char → Option (List Char)
  | [], s => some s
  | _ :: _, [] => none
  | p :: ps, c :: cs => if p == c then dropLitCS ps cs else none

/-- Consume a literal pattern case-insensitively (Python `re.IGNORECASE`). -/
def dropLitCI : List Char → List Char → Option (List Char)
  | [], s => some s
  | _ :: _, [] => none
  | p :: ps, c :: cs => if lowerChar p == lowerChar c then dropLitCI ps cs else none

/-- Whether `s` starts with `pat` (case-sensitive). -/
def startsWithCS (pat s : List Char) : Bool := (dropLitCS pat s).isSome

/-- Substring test, Python `pat in s` (case-sensitive). -/
def containsSub (pat : List Char) : List Char → Bool
  | [] => (dropLitCS pat []).isSome
  | s@(_ :: rest) => (dropLitCS pat s).isSome || containsSub pat rest

/-- Word-boundary condition before a match: previous character (if any) is
not a word character. -/
def boundaryL (prev : Option Char) : Bool :=
  match prev with
  | none => true
  | some c => !isWordChar c

/-- Pattern of a word-boundary-delimited literal at the head of `s` (case-sensitive literal `w`, all of whose
characters are word characters; leading boundary is checked by callers). -/
def wordAt (w s : List Char) : Bool :=
  match dropLitCS w s with
  | some [] => true
  | some (c :: _) => !isWordChar c
  | none => false

/-- Python re.search of the word-boundary-delimited literal `w` (a literal made of word characters). -/
def searchWordAux (w : List Char) : Option Char → List Char → Bool
  | _, [] => false
  | prev, c :: rest =>
    (boundaryL prev && wordAt w (c :: rest)) || searchWordAux w (some c) rest

def searchWord (w s : List Char) : Bool := searchWordAux w none s

end Antaq

namespace Antaq

/-! The generic re.sub scanner

A substitution step takes the character before the current position (for
word-boundary checks) and the remaining text; it returns the replacement
text together with the length of the matched text.  `scanSub` mirrors
`re.sub`: find the leftmost match, emit the replacement, continue scanning
right after the matched text (replacements are never rescanned).  All the
patterns in the source match at least one character, so a fuel of
`length + 1` always suffices; the fuel is only a termination device. -/

def scanSub (step : Option Char → List Char → Option (List Char × Nat)) :
    Nat → Option Char → List Char → List Char
  | 0, _, s => s
  | fuel + 1, prev, s =>
    match step prev s with
    | some (repl, len) =>
      let matched := s.take len
      let newPrev := match matched.getLast? with
        | some c => some c
        | none => prev
      repl ++ scanSub step fuel newPrev (s.drop len)
    | none =>
      match s with
      | [] => []
      | c :: rest => c :: scanSub step fuel (some c) rest

/-- Run a substitution step over a whole string. -/
def runSub (step : Option Char → List Char → Option (List Char × Nat))
    (s : List Char) : List Char :=
  scanSub step (s.length + 1) none s

end Antaq

namespace SQLValidator

open Antaq

/-- Source list `FORBIDDEN_KEYWORDS` of `SQLValidator`. -/
def FORBIDDEN_KEYWORDS : List String :=
  ["DROP", "DELETE", "UPDATE", "INSERT", "CREATE",
   "ALTER", "TRUNCATE", "GRANT", "REVOKE", "EXECUTE",
   "CALL", "MERGE", "REPLACE"]

/-- Source list `ALLOWED_PREFIXES` of `SQLValidator` (allowed leading tokens). -/
def ALLOWED_STARTS : List String :=
  ["SELECT", "WITH", "(", "SHOW", "DESCRIBE", "DESC"]

/-- Python `SQLValidator._check_forbidden_keywords`: uppercase the query, then
collect every forbidden keyword that occurs as a whole word (`\bKW\b`). -/
def checkForbiddenKeywords (query : String) : List String :=
  FORBIDDEN_KEYWORDS.filter (fun k => searchWord k.data (upperL query.data))

/-- Python method checking the allowed leading token: the trimmed uppercased query must
start with one of the allowed tokens. -/
def checkAllowedStart (query : String) : Bool :=
  ALLOWED_STARTS.any (fun p => startsWithCS p.data (pyStripL (upperL query.data)))

/-- Python `SQLValidator._has_limit`: the uppercased query contains LIMIT. -/
def hasLimit (query : String) : Bool :=
  containsSub "LIMIT".data (upperL query.data)

/-- Python `SQLValidator._has_where`: the uppercased query contains WHERE. -/
def hasWhere (query : String) : Bool :=
  containsSub "WHERE".data (upperL query.data)

/-- Python `SQLValidator._add_limit`: strip trailing semicolons and whitespace,
then append a newline and `LIMIT <max_rows>`. -/
def addLimit (maxRows : Nat) (query : String) : String :=
  ⟨pyStripL (rstripSemi query.data) ++ "\nLIMIT ".data ++ (Nat.repr maxRows).data⟩

/-! The LIKE-predicate matcher shared by three passes

Pattern `(?P<field>(?:LOWER\()?\s*[\w\.]*porto_atracacao\)?)\s+LIKE\s+\x27(?P<value>...)\x27`
with `re.IGNORECASE`; `_normalize_portos_do_parana` and
`_normalize_terminal_like` use `[^\x27]+` for the value,
`_normalize_porto_like_accent_insensitive` uses `[^\x27]*`.

Backtracking notes, justifying the deterministic scanner below:
the greedy `[\w\.]*` run must end exactly where `porto_atracacao` ends,
because the next pattern element is `\)?\s+`, and any word-or-dot
character following an interior occurrence of the literal defeats both
alternatives; the greedy `\)?` with a failing tail falls back to the
empty alternative, which then requires `\s+` to match at the `)` and
fails, so consuming the `)` is obligatory when the tail then succeeds. -/

/-- Consume the tail `\s+LIKE\s+\x27value\x27`; return the value and the consumed length. -/
def matchAfterField (allowEmpty : Bool) (s : List Char) :
    Option (List Char × Nat) :=
  let ws1 := s.takeWhile isPySpace
  if ws1.isEmpty then none else
  let s1 := s.drop ws1.length
  match dropLitCI "LIKE".data s1 with
  | none => none
  | some s2 =>
    let ws2 := s2.takeWhile isPySpace
    if ws2.isEmpty then none else
    let s3 := s2.drop ws2.length
    match s3 with
    | [] => none
    | q :: s4 =>
      if q != quoteChar then none else
      let v := s4.takeWhile (fun c => !(c == quoteChar))
      if !allowEmpty && v.isEmpty then none else
      match s4.drop v.length with
      | q2 :: _ =>
        if q2 == quoteChar then
          some (v, ws1.length + 4 + ws2.length + 1 + v.length + 1)
        else none
      | [] => none

/-- Match the pattern `\s*[\w\.]*porto_atracacao\)?\s+LIKE\s+\x27value\x27` at the head of
`s`; return (field text without the optional leading `LOWER(`, value,
total consumed length). -/
def matchLikeNoLower (allowEmpty : Bool) (s : List Char) :
    Option (List Char × List Char × Nat) :=
  let sp := s.takeWhile isPySpace
  let s1 := s.drop sp.length
  let run := s1.takeWhile isWordDot
  if run.length < 15 then none
  else if !(lowerL (run.drop (run.length - 15)) == "porto_atracacao".data) then none
  else
    let s2 := s1.drop run.length
    let base := sp ++ run
    let withParen : Option (List Char × List Char × Nat) :=
      match s2 with
      | ')' :: s3 =>
        (matchAfterField allowEmpty s3).map
          (fun (r : List Char × Nat) =>
            (base ++ [')'], r.1, sp.length + run.length + 1 + r.2))
      | _ => none
    match withParen with
    | some r => some r
    | none =>
      (matchAfterField allowEmpty s2).map
        (fun (r : List Char × Nat) =>
          (base, r.1, sp.length + run.length + r.2))

/-- Match the full LIKE-predicate pattern at the head of `s`, including
the greedy optional `LOWER(`; return (field, value, consumed length). -/
def matchLikePred (allowEmpty : Bool) (s : List Char) :
    Option (List Char × List Char × Nat) :=
  match dropLitCI "LOWER(".data s with
  | some s1 =>
    (match matchLikeNoLower allowEmpty s1 with
     | some r => some (s.take 6 ++ r.1, r.2.1, 6 + r.2.2)
     | none => matchLikeNoLower allowEmpty s)
  | none => matchLikeNoLower allowEmpty s

/-! Pass 1: `_normalize_tipo_carga`

`re.sub(r"\b(tipo_carga|tipo_de_carga|tipo_da_carga)\b", "natureza_carga",
query, flags=re.IGNORECASE)` — the alternatives are tried in order. -/

/-- Match one alternative case-insensitively with a trailing `\b`. -/
def matchVariantCI (v s : List Char) : Bool :=
  match dropLitCI v s with
  | some [] => true
  | some (c :: _) => !isWordChar c
  | none => false

def tipoCargaStep (prev : Option Char) (s : List Char) :
    Option (List Char × Nat) :=
  if boundaryL prev then
    if matchVariantCI "tipo_carga".data s then
      some ("natureza_carga".data, 10)
    else if matchVariantCI "tipo_de_carga".data s then
      some ("natureza_carga".data, 13)
    else if matchVariantCI "tipo_da_carga".data s then
      some ("natureza_carga".data, 13)
    else none
  else none

def normalizeTipoCarga (query : String) : String :=
  ⟨runSub tipoCargaStep query.data⟩

/-! Pass 2: `_normalize_portos_do_parana` -/

/-- Pattern `\bportos?\s+do\s+parana\b` at the head of `s` (on the lowered,
`á`/`ã`-folded value, so a case-sensitive match); leading boundary is
checked by the caller.  The greedy `s?` is deterministic: if the optional
`s` is taken, `\s+` must follow it, and if it is not taken `\s+` must
match the `s` itself and fails. -/
def paranaAt (s : List Char) : Bool :=
  match dropLitCS "porto".data s with
  | none => false
  | some r =>
    let r1 := match r with
      | 's' :: t => t
      | _ => r
    let ws1 := r1.takeWhile isPySpace
    if ws1.isEmpty then false else
    match dropLitCS "do".data (r1.drop ws1.length) with
    | none => false
    | some r2 =>
      let ws2 := r2.takeWhile isPySpace
      if ws2.isEmpty then false else
      match dropLitCS "parana".data (r2.drop ws2.length) with
      | none => false
      | some [] => true
      | some (c :: _) => !isWordChar c

def paranaSearchAux : Option Char → List Char → Bool
  | _, [] => false
  | prev, c :: rest =>
    (boundaryL prev && paranaAt (c :: rest)) || paranaSearchAux (some c) rest

def paranaStep (_prev : Option Char) (s : List Char) :
    Option (List Char × Nat) :=
  match matchLikePred false s with
  | none => none
  | some (field, value, len) =>
    let fieldExpr := pyStripL field
    let valueNorm :=
      (lowerL value).map (fun c => if c == 'á' || c == 'ã' then 'a' else c)
    if paranaSearchAux none valueNorm then
      let f :=
        if startsWithCS "lower(".data (lowerL fieldExpr) then fieldExpr
        else "LOWER(".data ++ fieldExpr ++ [')']
      some (['('] ++ f ++ " LIKE \x27%paranagua%\x27 OR ".data ++ f ++
              " LIKE \x27%antonina%\x27)".data, len)
    else
      some (s.take len, len)

def normalizePortosDoParana (query : String) : String :=
  ⟨runSub paranaStep query.data⟩

/-! Pass 3: `_normalize_porto_like`

`(LIKE\s+\x27)%?porto\s+(?:de|da|do)\s+([^%\x27]+?)%?(\x27)`, `re.IGNORECASE`.
The lazy `[^%\x27]+?` is deterministic because its characters exclude both
closers: the group extends to the first percent sign or quote. -/

def portoLikeStep (_prev : Option Char) (s : List Char) :
    Option (List Char × Nat) :=
  match dropLitCI "LIKE".data s with
  | none => none
  | some s1 =>
    let ws := s1.takeWhile isPySpace
    if ws.isEmpty then none else
    match s1.drop ws.length with
    | [] => none
    | q :: s3 =>
      if q != quoteChar then none else
      let pct1 := match s3 with
        | '%' :: _ => 1
        | _ => 0
      let s4 := s3.drop pct1
      match dropLitCI "porto".data s4 with
      | none => none
      | some s5 =>
        let ws2 := s5.takeWhile isPySpace
        if ws2.isEmpty then none else
        let s6 := s5.drop ws2.length
        match (match dropLitCI "de".data s6 with
               | some r => some r
               | none => match dropLitCI "da".data s6 with
                         | some r => some r
                         | none => dropLitCI "do".data s6) with
        | none => none
        | some s7 =>
          let ws3 := s7.takeWhile isPySpace
          if ws3.isEmpty then none else
          let s8 := s7.drop ws3.length
          let v := s8.takeWhile (fun c => !(c == '%') && !(c == quoteChar))
          if v.isEmpty then none else
          let s9 := s8.drop v.length
          let pct2 := match s9 with
            | '%' :: _ => 1
            | _ => 0
          match s9.drop pct2 with
          | q2 :: _ =>
            if q2 != quoteChar then none else
            let g1 := 4 + ws.length + 1
            some (s.take g1 ++ ['%'] ++ pyStripL v ++ ['%', quoteChar],
                  g1 + pct1 + 5 + ws2.length + 2 + ws3.length + v.length + pct2 + 1)
          | [] => none

def normalizePortoLike (query : String) : String :=
  ⟨runSub portoLikeStep query.data⟩

/-! Pass 4: `_normalize_terminal_like` -/

/-- Trailing `\b`: the rest is empty or starts with a non-word character. -/
def boundaryAfterOk : List Char → Bool
  | [] => true
  | c :: _ => !isWordChar c

/-- Inner sub A: `\b(terminal(?:es)?|porto|portuário(?:s)?)\b` → `" "`.
The alternatives share no viable prefixes at a common position (`terminal`
vs `porto`/`portuário` differ at the first character, `porto` and
`portuário` differ at index 4), so trying them in order with their own
trailing boundaries is faithful.  The greedy `(?:es)?`/`(?:s)?` first
tries the suffix; on a failed trailing boundary it falls back to the bare
stem, whose trailing boundary then necessarily fails too (the suffix
starts with a word character), so no match results. -/
def terminalWordStep (prev : Option Char) (s : List Char) :
    Option (List Char × Nat) :=
  if boundaryL prev then
    match dropLitCI "terminal".data s with
    | some r =>
      (match dropLitCI "es".data r with
       | some r2 => if boundaryAfterOk r2 then some ([' '], 10) else none
       | none => if boundaryAfterOk r then some ([' '], 8) else none)
    | none =>
      match dropLitCI "porto".data s with
      | some r => if boundaryAfterOk r then some ([' '], 5) else none
      | none =>
        match dropLitCI "portuário".data s with
        | some r =>
          (match dropLitCI "s".data r with
           | some r2 => if boundaryAfterOk r2 then some ([' '], 10) else none
           | none => if boundaryAfterOk r then some ([' '], 9) else none)
        | none => none
  else none

/-- Inner sub B: `\b(?:de|da|do)\b` → `" "`. -/
def deDaDoStep (prev : Option Char) (s : List Char) :
    Option (List Char × Nat) :=
  if boundaryL prev then
    if matchVariantCI "de".data s then some ([' '], 2)
    else if matchVariantCI "da".data s then some ([' '], 2)
    else if matchVariantCI "do".data s then some ([' '], 2)
    else none
  else none

/-- Python `str.split()`: split on whitespace runs, dropping empties. -/
def pySplitWs (s : List Char) : List (List Char) :=
  ((s.splitOnP isPySpace).filter (fun w => !w.isEmpty))

/-- Python join of the whitespace-split words by single spaces. -/
def joinSplit (s : List Char) : List Char :=
  List.intercalate [' '] (pySplitWs s)

def terminalLikeStep (_prev : Option Char) (s : List Char) :
    Option (List Char × Nat) :=
  match matchLikePred false s with
  | none => none
  | some (_field, value, len) =>
    let c1 := runSub terminalWordStep value
    let c2 := runSub deDaDoStep c1
    let cleaned := stripPercent (joinSplit c2)
    if cleaned.isEmpty then some (s.take len, len)
    else
      let g1 := len - value.length - 1
      some (s.take g1 ++ ['%'] ++ cleaned ++ ['%', quoteChar], len)

def normalizeTerminalLike (query : String) : String :=
  ⟨runSub terminalLikeStep query.data⟩

/-! Pass 5: `_normalize_porto_like_accent_insensitive` -/

/-- Python `strip_accents`: Unicode NFD followed by removal of combining marks,
restricted to the Latin-1 letters in play (each decomposes into its base
letter plus marks) and to free-standing combining marks (dropped). -/
def deaccentChar (c : Char) : Option Char :=
  if 0x300 ≤ c.toNat && c.toNat ≤ 0x36F then none
  else
    let table : List (Char × Char) :=
      [('á', 'a'), ('à', 'a'), ('â', 'a'), ('ã', 'a'), ('ä', 'a'), ('å', 'a'),
       ('é', 'e'), ('è', 'e'), ('ê', 'e'), ('ë', 'e'),
       ('í', 'i'), ('ì', 'i'), ('î', 'i'), ('ï', 'i'),
       ('ó', 'o'), ('ò', 'o'), ('ô', 'o'), ('õ', 'o'), ('ö', 'o'),
       ('ú', 'u'), ('ù', 'u'), ('û', 'u'), ('ü', 'u'),
       ('ç', 'c'), ('ñ', 'n'), ('ý', 'y'), ('ÿ', 'y'),
       ('Á', 'A'), ('À', 'A'), ('Â', 'A'), ('Ã', 'A'), ('Ä', 'A'), ('Å', 'A'),
       ('É', 'E'), ('È', 'E'), ('Ê', 'E'), ('Ë', 'E'),
       ('Í', 'I'), ('Ì', 'I'), ('Î', 'I'), ('Ï', 'I'),
       ('Ó', 'O'), ('Ò', 'O'), ('Ô', 'O'), ('Õ', 'O'), ('Ö', 'O'),
       ('Ú', 'U'), ('Ù', 'U'), ('Û', 'U'), ('Ü', 'U'),
       ('Ç', 'C'), ('Ñ', 'N'), ('Ý', 'Y')]
    match table.find? (fun p => p.1 == c) with
    | some p => some p.2
    | none => some c

def stripAccentsL (s : List Char) : List Char := s.filterMap deaccentChar

def accentStep (_prev : Option Char) (s : List Char) :
    Option (List Char × Nat) :=
  match matchLikePred true s with
  | none => none
  | some (field, value, len) =>
    let fe := pyStripL field
    let fe2 :=
      if startsWithCS "lower(".data (lowerL fe) && fe.getLast? == some ')' then
        (fe.drop 6).dropLast
      else fe
    some ("REGEXP_REPLACE(NORMALIZE(LOWER(".data ++ fe2 ++
            "), NFD), r\x27\\pM\x27, \x27\x27) LIKE \x27".data ++
            stripAccentsL value ++ [quoteChar], len)

def normalizePortoLikeAccentInsensitive (query : String) : String :=
  ⟨runSub accentStep query.data⟩

/-- The five normalization passes in the fixed order of
`SQLValidator.validate`. -/
def normalizePasses (query : String) : String :=
  normalizePortoLikeAccentInsensitive
    (normalizeTerminalLike
      (normalizePortoLike
        (normalizePortosDoParana
          (normalizeTipoCarga query))))

/-! The injection-pattern scan -/

/-- Pattern `\bor\s+1\s*=\s*1\b` at the head (leading boundary checked by the
caller); the `\s*` runs are deterministic since `=`, `1` are not spaces. -/
def or11At (s : List Char) : Bool :=
  match dropLitCS "or".data s with
  | none => false
  | some r =>
    let ws1 := r.takeWhile isPySpace
    if ws1.isEmpty then false else
    match r.drop ws1.length with
    | '1' :: r2 =>
      (match (r2.dropWhile isPySpace) with
       | '=' :: r3 =>
         (match (r3.dropWhile isPySpace) with
          | '1' :: r4 => boundaryAfterOk r4
          | _ => false)
       | _ => false)
    | _ => false

def or11SearchAux : Option Char → List Char → Bool
  | _, [] => false
  | prev, c :: rest =>
    (boundaryL prev && or11At (c :: rest)) || or11SearchAux (some c) rest

/-- Pattern `union.*select` without DOTALL: an occurrence of `union` followed,
with no intervening newline, by `select`. -/
def unionSelectAux : List Char → Bool
  | [] => false
  | s@(_ :: rest) =>
    (match dropLitCS "union".data s with
     | some r => containsSub "select".data (r.takeWhile (fun c => !(c == '\n')))
     | none => false) || unionSelectAux rest

/-- The regex source strings, used verbatim in the warning message. -/
def INJECTION_PATTERN_SOURCES : List String :=
  ["\x27;", "--", "/\\*", "\\bor\\s+1\\s*=\\s*1\\b", "\\bxor\\b", "union.*select"]

/-- Python `SQLValidator._check_injection_patterns`: which of the six suspicious
patterns match the lowered query; returns the pattern sources in scan
order, as the Python code appends them. -/
def checkInjectionPatterns (query : String) : List String :=
  let s := lowerL query.data
  let hits : List Bool :=
    [containsSub "\x27;".data s,
     containsSub "--".data s,
     containsSub "/*".data s,
     or11SearchAux none s,
     searchWord "xor".data s,
     unionSelectAux s]
  (INJECTION_PATTERN_SOURCES.zip hits).filterMap
    (fun p => if p.2 then some p.1 else none)

/-! The validate method -/

/-- The validation verdict dictionary returned by `SQLValidator.validate`. -/
structure Verdict where
  is_valid : Bool
  errors : List String
  warnings : List String
  sanitized_query : String
  deriving Repr, DecidableEq

def forbiddenMsg (found : List String) : String :=
  "Comandos não permitidos encontrados: " ++ String.intercalate ", " found

def startMsg : String := "Query deve começar com SELECT, WITH, ou SHOW"

def limitMsg (maxRows : Nat) : String :=
  "Query sem LIMIT pode retornar muitos registros. Adicionando LIMIT " ++
    Nat.repr maxRows

def injectionMsg (found : List String) : String :=
  "Padrões suspeitos detectados: " ++ String.intercalate ", " found

def whereMsg : String :=
  "Query sem WHERE pode fazer table scan. Recomendado adicionar filtro de ano."

/-- The text every check of `validate` runs on: the trimmed query after
the five normalization passes (`validate` lines 39-44). -/
def normalizedOf (query : String) : String :=
  normalizePasses ⟨pyStripL query.data⟩

/-- The blocking errors accumulated by `validate`, in source order:
forbidden keywords, then the allowed-leading-token check. -/
def validateErrors (query : String) : List String :=
  (if (checkForbiddenKeywords (normalizedOf query)).isEmpty then []
   else [forbiddenMsg (checkForbiddenKeywords (normalizedOf query))]) ++
  (if checkAllowedStart (normalizedOf query) then [] else [startMsg])

/-- The sanitized query `validate` returns: the normalized text, with the
LIMIT cap appended when the normalized text lacks one. -/
def sanitizedOf (maxRows : Nat) (query : String) : String :=
  if hasLimit (normalizedOf query) then normalizedOf query
  else addLimit maxRows (normalizedOf query)

/-- The advisory warnings accumulated by `validate`, in source order:
the auto-added-LIMIT notice, then the injection-pattern and missing-WHERE
scans, both of which run on the already limit-enforced text. -/
def validateWarnings (maxRows : Nat) (query : String) : List String :=
  (if hasLimit (normalizedOf query) then [] else [limitMsg maxRows]) ++
  (if (checkInjectionPatterns (sanitizedOf maxRows query)).isEmpty then []
   else [injectionMsg (checkInjectionPatterns (sanitizedOf maxRows query))]) ++
  (if !hasWhere (sanitizedOf maxRows query) &&
      containsSub "FROM".data (upperL (sanitizedOf maxRows query).data) then
     [whereMsg]
   else [])

/-- Python `SQLValidator.validate(query)` with row cap `maxRows`
(`SQLValidator(max_rows=...)`, default 1000): trim, run the five
normalization passes, scan for forbidden keywords and the allowed leading
token (blocking errors), enforce LIMIT (with a warning) on the normalized
text, then run the advisory injection-pattern and missing-WHERE scans on
the limit-enforced text; valid iff no blocking error. -/
def validate (maxRows : Nat) (query : String) : Verdict :=
  { is_valid := (validateErrors query).isEmpty
    errors := validateErrors query
    warnings := validateWarnings maxRows query
    sanitized_query := sanitizedOf maxRows query }

end SQLValidator

namespace Agent

open Antaq SQLValidator

/-! The orchestration state machine (`src/agent/nodes.py`, `src/agent/graph.py`)

The orchestrator fields touched by the generate/validate/execute loop.
`query_results` rows and the final answer carry no content the claims
inspect, so a
row is a `List String`.  The SQL-generation collaborator (the LLM behind
`generate_sql_node`) is an external function from the attempt counter at
call time to the extracted SQL text; the SQL-execution collaborator
(`bq_client.aquery`) is an external function from the SQL text to either
rows or a raised error message. -/

structure AgentState where
  generated_sql : Option String
  validated_sql : Option String
  sql_error : Option String
  attempt_count : Nat
  max_attempts : Nat
  query_results : Option (List (List String))
  row_count : Option Nat
  deriving Repr, DecidableEq

/-- The initial per-turn state built by `_query_agente_impl`. -/
def initState (maxAttempts : Nat) : AgentState :=
  { generated_sql := none
    validated_sql := none
    sql_error := none
    attempt_count := 0
    max_attempts := maxAttempts
    query_results := none
    row_count := none }

/-- Python truthiness of an optional string (`if state.get(...)`): present
and non-empty. -/
def pyTruthyStr : Option String → Bool
  | none => false
  | some m => !m.data.isEmpty

/-- Python `generate_sql_node`: call the generation collaborator, store the
extracted SQL and increment the attempt counter. -/
def generateSqlNode (gen : Nat → String) (s : AgentState) : AgentState :=
  { s with
    generated_sql := some (gen s.attempt_count)
    attempt_count := s.attempt_count + 1 }

/-- Python `validate_sql_node`, parametrized by the verdict function so that the
short-circuit on an empty candidate is visibly independent of the
validator.  Branches in source order: empty candidate; invalid verdict;
attempt ceiling reached; success. -/
def validateSqlNodeG (V : String → Verdict) (s : AgentState) : AgentState :=
  if s.generated_sql.getD "" = "" then
    { s with validated_sql := none, sql_error := some "Nenhuma query foi gerada." }
  else if !(V (s.generated_sql.getD "")).is_valid then
    { s with
      validated_sql := none
      sql_error := some ("Erros de validação: " ++
        String.intercalate "; " (V (s.generated_sql.getD "")).errors) }
  else if s.max_attempts ≤ s.attempt_count then
    { s with
      validated_sql := none
      sql_error := some "Número máximo de tentativas atingido." }
  else
    { s with
      validated_sql := some (V (s.generated_sql.getD "")).sanitized_query
      sql_error := none }

/-- Python `validate_sql_node` with the concrete singleton validator
(`get_sql_validator()`, `max_rows = 1000`). -/
def validateSqlNode (s : AgentState) : AgentState :=
  validateSqlNodeG (validate 1000) s

/-- Python `execute_sql_node`: run the execution collaborator on the validated
SQL; convert a raised error into state data (never re-raised). -/
def executeSqlNode (ex : String → Except String (List (List String)))
    (s : AgentState) : AgentState :=
  match ex (s.validated_sql.getD "") with
  | Except.ok rows =>
    { s with query_results := some rows, row_count := some rows.length }
  | Except.error e =>
    { s with
      query_results := none
      row_count := some 0
      sql_error := some ("Erro ao executar query: " ++ e) }

/-- Python `should_continue_to_execute`: the conditional router out of the
validation node. -/
def shouldContinueToExecute (s : AgentState) : String :=
  if pyTruthyStr s.sql_error then
    if s.attempt_count < s.max_attempts then "retry" else "end"
  else if pyTruthyStr s.validated_sql then "execute"
  else "end"

/-- The graph nodes reachable from `generate_sql` (the schema-setup and
example-retrieval prelude nodes do not touch the loop state and feed
unconditionally into `generate_sql`; `END` is `terminate`). -/
inductive GNode where
  | generateSQL
  | validateSQL
  | executeSQL
  | finalAnswer
  | terminate
  deriving Repr, DecidableEq, BEq

/-- One transition of the compiled graph: `generate_sql -> validate_sql`;
`validate_sql -> {generate_sql, execute_sql, END}` by
`should_continue_to_execute`; `execute_sql -> generate_final_answer`;
`generate_final_answer -> END`.  The final-answer node only writes the
answer text, which is outside the modelled fields. -/
def step (gen : Nat → String) (ex : String → Except String (List (List String))) :
    GNode × AgentState → GNode × AgentState
  | (GNode.generateSQL, s) => (GNode.validateSQL, generateSqlNode gen s)
  | (GNode.validateSQL, s) =>
    let s2 := validateSqlNode s
    if shouldContinueToExecute s2 = "retry" then (GNode.generateSQL, s2)
    else if shouldContinueToExecute s2 = "execute" then (GNode.executeSQL, s2)
    else (GNode.terminate, s2)
  | (GNode.executeSQL, s) => (GNode.finalAnswer, executeSqlNode ex s)
  | (GNode.finalAnswer, s) => (GNode.terminate, s)
  | (GNode.terminate, s) => (GNode.terminate, s)

/-- Iterate the state machine from a configuration. -/
def runFrom (gen : Nat → String) (ex : String → Except String (List (List String)))
    (c : GNode × AgentState) : Nat → GNode × AgentState
  | 0 => c
  | n + 1 => step gen ex (runFrom gen ex c n)

end Agent

/-! Shared lemmas -/

namespace Antaq

theorem strdata_append (a b : String) : (a ++ b).data = a.data ++ b.data := by
  cases a; cases b; rfl

theorem dropLitCS_self (pat r : List Char) : dropLitCS pat (pat ++ r) = some r := by
  induction pat with
  | nil => rfl
  | cons p ps ih => simp [dropLitCS, ih]

theorem containsSub_of_startsWith (pat s : List Char)
    (h : startsWithCS pat s = true) : containsSub pat s = true := by
  cases s with
  | nil => simpa [containsSub, startsWithCS] using h
  | cons c rest =>
    simp only [containsSub, startsWithCS, Bool.or_eq_true] at h ⊢
    exact Or.inl h

theorem containsSub_sandwich (pat l r : List Char) :
    containsSub pat (l ++ (pat ++ r)) = true := by
  induction l with
  | nil =>
    simp only [List.nil_append]
    exact containsSub_of_startsWith _ _ (by simp [startsWithCS, dropLitCS_self])
  | cons c l ih =>
    simp only [List.cons_append, containsSub, Bool.or_eq_true]
    exact Or.inr ih

end Antaq

namespace SQLValidator

open Antaq

/-- The normalized text scanned by the blocking checks: the trimmed query
after the five passes. -/
theorem normalizedOf_eq (q : String) :
    normalizedOf q = normalizePasses ⟨pyStripL q.data⟩ := rfl

theorem validate_errors (maxRows : Nat) (q : String) :
    (validate maxRows q).errors = validateErrors q := rfl

theorem validate_is_valid (maxRows : Nat) (q : String) :
    (validate maxRows q).is_valid = (validateErrors q).isEmpty := rfl

theorem validate_warnings (maxRows : Nat) (q : String) :
    (validate maxRows q).warnings = validateWarnings maxRows q := rfl

theorem validate_sanitized (maxRows : Nat) (q : String) :
    (validate maxRows q).sanitized_query = sanitizedOf maxRows q := rfl

/-- The LIMIT-enforced text always contains the token `LIMIT` after
uppercasing: `_add_limit` appends the literal `\nLIMIT <n>`. -/
theorem containsLIMIT_addLimit (maxRows : Nat) (s : String) :
    containsSub "LIMIT".data (upperL (addLimit maxRows s).data) = true := by
  have h1 : (addLimit maxRows s).data =
      pyStripL (rstripSemi s.data) ++ "\nLIMIT ".data ++ (Nat.repr maxRows).data := rfl
  rw [h1, upperL, List.map_append, List.map_append]
  have h2 : List.map upperChar "\nLIMIT ".data = '\n' :: ("LIMIT".data ++ [' ']) := rfl
  rw [h2]
  have h3 : List.map upperChar (pyStripL (rstripSemi s.data)) ++
        ('\n' :: ("LIMIT".data ++ [' '])) ++ List.map upperChar (Nat.repr maxRows).data
      = (List.map upperChar (pyStripL (rstripSemi s.data)) ++ ['\n']) ++
        ("LIMIT".data ++ ([' '] ++ List.map upperChar (Nat.repr maxRows).data)) := by
    simp [List.append_assoc]
  rw [h3]
  exact containsSub_sandwich _ _ _

end SQLValidator

namespace Agent

open Antaq SQLValidator

theorem validation_error_msg_nonempty (x : String) :
    (!("Erros de validação: " ++ x).data.isEmpty) = true := by
  rw [strdata_append]
  rfl

/-- Routing after a successful validation: `sql_error` was cleared, so the
router inspects the truthiness of the validated SQL. -/
theorem route_of_success (s : AgentState) (q : String) :
    shouldContinueToExecute { s with validated_sql := some q, sql_error := none } =
      (if q.data.isEmpty then "end" else "execute") := by
  cases hq : q.data.isEmpty <;> simp [shouldContinueToExecute, pyTruthyStr, hq]

/-- Routing after a failed validation: a non-empty error message is
truthy, so the router retries below the attempt ceiling and stops at
it. -/
theorem route_of_error (s : AgentState) (m : String)
    (hm : (!m.data.isEmpty) = true) :
    shouldContinueToExecute { s with validated_sql := none, sql_error := some m } =
      (if s.attempt_count < s.max_attempts then "retry" else "end") := by
  simp [shouldContinueToExecute, pyTruthyStr, hm]

theorem step_terminate_absorbs (gen : Nat → String)
    (ex : String → Except String (List (List String))) (s : AgentState) :
    step gen ex (GNode.terminate, s) = (GNode.terminate, s) := rfl

/-- Once the machine reaches `END`, every longer run agrees with it. -/
theorem runFrom_terminate_fix (gen : Nat → String)
    (ex : String → Except String (List (List String)))
    (c : GNode × AgentState) (n : Nat)
    (h : (runFrom gen ex c n).1 = GNode.terminate) :
    ∀ k, runFrom gen ex c (n + k) = runFrom gen ex c n := by
  intro k
  induction k with
  | zero => rfl
  | succ k ih =>
    show step gen ex (runFrom gen ex c (n + k)) = runFrom gen ex c n
    rw [ih]
    rcases hE : runFrom gen ex c n with ⟨node, s⟩
    rw [hE] at h
    simp only at h
    subst h
    rfl

/-- The loop invariant: nothing is validated at the generation/validation
nodes, and at the execution node the validated SQL is the sanitized text
of a verdict-valid generated query. -/
def stateInv : GNode × AgentState → Prop
  | (GNode.generateSQL, s) => s.validated_sql = none
  | (GNode.validateSQL, s) => s.validated_sql = none
  | (GNode.executeSQL, s) =>
    ∃ g, s.generated_sql = some g ∧ (validate 1000 g).is_valid = true ∧
      s.validated_sql = some (validate 1000 g).sanitized_query
  | (GNode.finalAnswer, _) => True
  | (GNode.terminate, _) => True

theorem gen_some_of_ne_empty (s : AgentState)
    (h : ¬ (s.generated_sql.getD "" = "")) :
    s.generated_sql = some (s.generated_sql.getD "") := by
  cases hg : s.generated_sql with
  | none => rw [hg] at h; exact absurd rfl h
  | some g => rfl

/-- Whenever the router answers `retry`, the validation node has cleared
the validated SQL (every error branch writes `None`). -/
theorem validated_none_of_route_retry (s : AgentState)
    (h : shouldContinueToExecute (validateSqlNode s) = "retry") :
    (validateSqlNode s).validated_sql = none := by
  unfold validateSqlNode validateSqlNodeG at h ⊢
  by_cases h1 : (s.generated_sql.getD "") = ""
  · simp [h1]
  · rw [if_neg h1] at h ⊢
    by_cases h2 : (validate 1000 (s.generated_sql.getD "")).is_valid = true
    · simp only [h2, Bool.not_true, Bool.false_eq_true, if_false] at h ⊢
      by_cases h3 : s.max_attempts ≤ s.attempt_count
      · simp [h3]
      · rw [if_neg h3] at h ⊢
        rw [route_of_success] at h
        split at h <;> exact absurd h (by decide)
    · simp [h2]

/-- Whenever the router answers `execute`, the validation node has taken
its success branch: the candidate is non-empty, its verdict is valid, and
the validated SQL is the sanitized text of that verdict. -/
theorem exec_inv_of_route_execute (s : AgentState)
    (h : shouldContinueToExecute (validateSqlNode s) = "execute") :
    ∃ g, (validateSqlNode s).generated_sql = some g ∧
      (validate 1000 g).is_valid = true ∧
      (validateSqlNode s).validated_sql = some (validate 1000 g).sanitized_query := by
  unfold validateSqlNode validateSqlNodeG at h ⊢
  by_cases h1 : (s.generated_sql.getD "") = ""
  · exfalso
    rw [if_pos h1, route_of_error s _ (by rfl)] at h
    split at h <;> exact absurd h (by decide)
  · rw [if_neg h1] at h ⊢
    by_cases h2 : (validate 1000 (s.generated_sql.getD "")).is_valid = true
    · simp only [h2, Bool.not_true, Bool.false_eq_true, if_false] at h ⊢
      by_cases h3 : s.max_attempts ≤ s.attempt_count
      · exfalso
        rw [if_pos h3, route_of_error s _ (by rfl)] at h
        split at h <;> exact absurd h (by decide)
      · rw [if_neg h3]
        exact ⟨s.generated_sql.getD "", gen_some_of_ne_empty s h1, h2, rfl⟩
    · exfalso
      have h2f : (validate 1000 (s.generated_sql.getD "")).is_valid = false := by
        cases hv : (validate 1000 (s.generated_sql.getD "")).is_valid
        · rfl
        · exact absurd hv h2
      rw [h2f] at h
      simp only [Bool.not_false, eq_self_iff_true, if_true] at h
      rw [route_of_error s _ (validation_error_msg_nonempty _)] at h
      split at h <;> exact absurd h (by decide)

theorem stateInv_step (gen : Nat → String)
    (ex : String → Except String (List (List String)))
    (c : GNode × AgentState) (h : stateInv c) : stateInv (step gen ex c) := by
  obtain ⟨node, s⟩ := c
  cases node with
  | generateSQL => simpa [step, generateSqlNode, stateInv] using h
  | executeSQL => simp [step, stateInv]
  | finalAnswer => simp [step, stateInv]
  | terminate => simp [step, stateInv]
  | validateSQL =>
    simp only [step]
    by_cases hR : shouldContinueToExecute (validateSqlNode s) = "retry"
    · rw [if_pos hR]
      exact validated_none_of_route_retry s hR
    · rw [if_neg hR]
      by_cases hX : shouldContinueToExecute (validateSqlNode s) = "execute"
      · rw [if_pos hX]
        exact exec_inv_of_route_execute s hX
      · rw [if_neg hX]
        trivial

/-- The invariant holds along every run started at `generate_sql` on a
fresh per-turn state. -/
theorem stateInv_runFrom (gen : Nat → String)
    (ex : String → Except String (List (List String))) (m n : Nat) :
    stateInv (runFrom gen ex (GNode.generateSQL, initState m) n) := by
  induction n with
  | zero => rfl
  | succ n ih => exact stateInv_step gen ex _ ih


end Agent

set_option maxRecDepth 16384

/-! The claims -/

namespace SQLValidator

open Antaq

/-- Claim C1: for every query whose normalized text (the keyword scan runs
after all normalization passes) contains a forbidden keyword as a whole
word, case-insensitively, the verdict of `SQLValidator.validate` has
`is_valid = false` and carries the blocking error naming the keywords
found. -/
theorem c1_forbidden_keywords_block (maxRows : Nat) (q : String)
    (h : checkForbiddenKeywords (normalizedOf q) ≠ []) :
    (validate maxRows q).is_valid = false ∧
      forbiddenMsg (checkForbiddenKeywords (normalizedOf q))
        ∈ (validate maxRows q).errors := by
  rcases hF : checkForbiddenKeywords (normalizedOf q) with _ | ⟨a, l⟩
  · exact absurd hF h
  · constructor
    · show (validateErrors q).isEmpty = false
      simp [validateErrors, hF]
    · show _ ∈ validateErrors q
      simp [validateErrors, hF]

/-- Claim C1, witnessed at the concrete query `DROP TABLE t`. -/
theorem c1_forbidden_keywords_block_witness :
    (checkForbiddenKeywords (normalizedOf "DROP TABLE t")).isEmpty = false ∧
    (validate 1000 "DROP TABLE t").is_valid = false ∧
      forbiddenMsg (checkForbiddenKeywords (normalizedOf "DROP TABLE t"))
        ∈ (validate 1000 "DROP TABLE t").errors :=
  ⟨by rfl, c1_forbidden_keywords_block 1000 "DROP TABLE t" (by decide)⟩

/-- Claim C3: for every query whose normalized text (the leading-token
check runs after all normalization passes) does not start, after trimming
and uppercasing, with SELECT, WITH, `(`, SHOW, DESCRIBE or DESC, the
verdict has `is_valid = false`, carrying the disallowed-start error —
independently of any forbidden keyword. -/
theorem c3_disallowed_start_rejects (maxRows : Nat) (q : String)
    (h : checkAllowedStart (normalizedOf q) = false) :
    (validate maxRows q).is_valid = false ∧
      startMsg ∈ (validate maxRows q).errors := by
  constructor
  · show (validateErrors q).isEmpty = false
    unfold validateErrors
    rw [h]
    split <;> simp
  · show _ ∈ validateErrors q
    unfold validateErrors
    rw [h]
    simp

/-- Claim C3, witnessed at `EXPLAIN SELECT 1`, which contains no forbidden
keyword. -/
theorem c3_disallowed_start_rejects_witness :
    checkAllowedStart (normalizedOf "EXPLAIN SELECT 1") = false ∧
    checkForbiddenKeywords (normalizedOf "EXPLAIN SELECT 1") = [] ∧
    (validate 1000 "EXPLAIN SELECT 1").is_valid = false ∧
      startMsg ∈ (validate 1000 "EXPLAIN SELECT 1").errors :=
  ⟨rfl, rfl, c3_disallowed_start_rejects 1000 "EXPLAIN SELECT 1" rfl⟩

/-- Claim C5: the sanitized query of every valid verdict contains the token
LIMIT after uppercasing; and when the normalized query has no LIMIT token
the sanitized query is exactly the semicolon-stripped normalized text with
a newline and `LIMIT maxRows` appended (`_add_limit`), and the
auto-added-cap notice is appended to the warnings. -/
theorem c5_limit_invariant (maxRows : Nat) (q : String) :
    ((validate maxRows q).is_valid = true →
      containsSub "LIMIT".data
        (upperL (validate maxRows q).sanitized_query.data) = true) ∧
    (hasLimit (normalizedOf q) = false →
      (validate maxRows q).sanitized_query = addLimit maxRows (normalizedOf q) ∧
      limitMsg maxRows ∈ (validate maxRows q).warnings) := by
  constructor
  · intro _
    show containsSub "LIMIT".data (upperL (sanitizedOf maxRows q).data) = true
    cases hL : hasLimit (normalizedOf q) with
    | true =>
      unfold sanitizedOf
      rw [hL]
      simp only [if_true, eq_self_iff_true]
      exact hL
    | false =>
      unfold sanitizedOf
      rw [hL]
      simp only [Bool.false_eq_true, if_false]
      exact containsLIMIT_addLimit maxRows (normalizedOf q)
  · intro h
    constructor
    · show sanitizedOf maxRows q = _
      unfold sanitizedOf
      rw [h]
      simp
    · show _ ∈ validateWarnings maxRows q
      unfold validateWarnings
      rw [h]
      simp

/-- Claim C5, witnessed at `SELECT * FROM t`: a valid query without a
LIMIT clause. -/
theorem c5_limit_invariant_witness :
    (validate 1000 "SELECT * FROM t").is_valid = true ∧
    hasLimit (normalizedOf "SELECT * FROM t") = false ∧
    containsSub "LIMIT".data
      (upperL (validate 1000 "SELECT * FROM t").sanitized_query.data) = true ∧
    (validate 1000 "SELECT * FROM t").sanitized_query
      = addLimit 1000 (normalizedOf "SELECT * FROM t") ∧
    limitMsg 1000 ∈ (validate 1000 "SELECT * FROM t").warnings := by
  obtain ⟨h1, h2⟩ := c5_limit_invariant 1000 "SELECT * FROM t"
  obtain ⟨h3, h4⟩ := h2 (by rfl)
  exact ⟨rfl, rfl, h1 (by rfl), h3, h4⟩

/-- Claim C10: `validate` on the empty string is total and returns the
expected verdict: invalid, with the disallowed-start error as sole
blocking error, the auto-added-LIMIT notice as sole warning, and the
non-null sanitized query `"\nLIMIT 1000"` under the default row cap. -/
theorem c10_empty_query_verdict :
    validate 1000 "" =
      { is_valid := false
        errors := ["Query deve começar com SELECT, WITH, ou SHOW"]
        warnings :=
          ["Query sem LIMIT pode retornar muitos registros. Adicionando LIMIT 1000"]
        sanitized_query := "\nLIMIT 1000" } := by rfl

end SQLValidator

namespace SQLValidator

open Antaq

/-- The nested porto-de query on which the pipeline is not idempotent. -/
def nestedPortoQuery : String :=
  "SELECT * FROM t WHERE x LIKE \x27porto de porto do sul\x27 LIMIT 10"

/-- Claim C6 counterexample: the five-pass pipeline is not idempotent.
On `nestedPortoQuery` the porto-de collapse rewrites the LIKE value
`porto de porto do sul` to `%porto do sul%`, and a second application of
the pipeline collapses it further to `%sul%`. -/
theorem c6_pipeline_not_idempotent :
    normalizePasses nestedPortoQuery =
      "SELECT * FROM t WHERE x LIKE \x27%porto do sul%\x27 LIMIT 10" ∧
    normalizePasses (normalizePasses nestedPortoQuery) =
      "SELECT * FROM t WHERE x LIKE \x27%sul%\x27 LIMIT 10" ∧
    (normalizePasses (normalizePasses nestedPortoQuery)
        == normalizePasses nestedPortoQuery) = false :=
  ⟨by rfl, by rfl, by rfl⟩

/-- Claim C6 amended: the pipeline is idempotent on the scenario queries of
the specification (Scenarios 1-4), though not on every query — the porto-de
collapse pass can re-fire on its own output when the LIKE value contains a
nested `porto de porto de/da/do ...` phrase. -/
theorem c6_idempotent_on_scenario_queries :
    normalizePasses (normalizePasses "SELECT * FROM t WHERE ano=2024 LIMIT 10")
      = normalizePasses "SELECT * FROM t WHERE ano=2024 LIMIT 10" ∧
    normalizePasses (normalizePasses "DROP TABLE t")
      = normalizePasses "DROP TABLE t" ∧
    normalizePasses (normalizePasses "SELECT * FROM t WHERE ano=2024")
      = normalizePasses "SELECT * FROM t WHERE ano=2024" ∧
    normalizePasses (normalizePasses
        "SELECT * FROM t WHERE LOWER(porto_atracacao) LIKE \x27%porto de itaqui%\x27 LIMIT 10")
      = normalizePasses
        "SELECT * FROM t WHERE LOWER(porto_atracacao) LIKE \x27%porto de itaqui%\x27 LIMIT 10" :=
  ⟨by rfl, by rfl, by rfl, by rfl⟩

/-- A LIKE filter on the port column whose value hides a keyword under an
accent. -/
def accentedDropFilter : String := "porto_atracacao LIKE \x27%dróp%\x27"

/-- Claim C7 counterexample: the accent-insensitive pass can introduce a
forbidden keyword.  The input contains no forbidden keyword, but accent
stripping turns the LIKE value `%dróp%` into `%drop%`, which the
word-boundary scan then reports as DROP. -/
theorem c7_accent_pass_introduces_keyword :
    checkForbiddenKeywords accentedDropFilter = [] ∧
    checkForbiddenKeywords
        (normalizePortoLikeAccentInsensitive accentedDropFilter) = ["DROP"] ∧
    checkForbiddenKeywords (normalizePasses accentedDropFilter) = ["DROP"] :=
  ⟨by rfl, by rfl, by rfl⟩

/-- Claim C7 amended: the fixed SQL fragments that the passes insert are
free of forbidden keywords under the word-boundary scan — in particular
the `REGEXP_REPLACE` wrapper of the accent-insensitive pass is not matched
as `REPLACE`, the Paraná expansion introduces none, and the column alias
`natureza_carga` introduces none. -/
theorem c7_inserted_fragments_keyword_free :
    checkForbiddenKeywords
      "REGEXP_REPLACE(NORMALIZE(LOWER(porto_atracacao), NFD), r\x27\\pM\x27, \x27\x27) LIKE \x27%paranagua%\x27"
      = [] ∧
    checkForbiddenKeywords
      "(LOWER(porto_atracacao) LIKE \x27%paranagua%\x27 OR LOWER(porto_atracacao) LIKE \x27%antonina%\x27)"
      = [] ∧
    checkForbiddenKeywords "natureza_carga" = [] :=
  ⟨by rfl, by rfl, by rfl⟩

end SQLValidator

namespace Agent

open Antaq SQLValidator

/-- The generation collaborator of Scenario 5: an invalid query twice,
then a valid one (the argument is the attempt counter before the call). -/
def genInvalidTwice : Nat → String := fun i =>
  if i < 2 then "DROP TABLE x" else "SELECT * FROM t LIMIT 10"

/-- Claim C2 (code bug): with a collaborator producing an invalid query
twice and then a valid one, and `max_attempts = 3`, the machine does NOT
reach `execute_sql` on the third attempt: although the third verdict is
valid, `validate_sql_node` checks `attempt_count >= max_attempts` after a
successful validation and discards the valid query, so the run terminates
with the max-attempts error and the executor is never invoked. -/
theorem c2_final_attempt_guard_blocks_execution :
    (validate 1000 "SELECT * FROM t LIMIT 10").is_valid = true ∧
    (∀ ex : String → Except String (List (List String)),
      (runFrom genInvalidTwice ex (GNode.generateSQL, initState 3) 6).1
        = GNode.terminate ∧
      (runFrom genInvalidTwice ex (GNode.generateSQL, initState 3) 6).2.attempt_count
        = 3 ∧
      (runFrom genInvalidTwice ex (GNode.generateSQL, initState 3) 6).2.sql_error
        = some "Número máximo de tentativas atingido." ∧
      (runFrom genInvalidTwice ex (GNode.generateSQL, initState 3) 6).2.validated_sql
        = none ∧
      ∀ n, ((runFrom genInvalidTwice ex (GNode.generateSQL, initState 3) n).1
              == GNode.executeSQL) = false) := by
  refine ⟨by rfl, fun ex => ⟨by rfl, by rfl, by rfl, by rfl, ?_⟩⟩
  intro n
  rcases Nat.lt_or_ge n 6 with h | h
  · interval_cases n <;> rfl
  · obtain ⟨k, rfl⟩ : ∃ k, n = 6 + k := ⟨n - 6, by omega⟩
    rw [runFrom_terminate_fix genInvalidTwice ex _ 6 (by rfl) k]
    rfl

/-- The generation collaborator of Scenario 6: always `DROP TABLE x`. -/
def genAlwaysDrop : Nat → String := fun _ => "DROP TABLE x"

/-- Claim C4: the machine reaches `execute_sql` only with a validated
query — the sanitized text of a verdict-valid generated query — and with
the always-DROP collaborator and `max_attempts = 2` it terminates after
exactly 2 generation attempts without the executor node ever being
entered, for every execution collaborator. -/
theorem c4_execution_gated_and_attempts_bounded :
    (∀ (gen : Nat → String) (ex : String → Except String (List (List String)))
        (m n : Nat),
      (runFrom gen ex (GNode.generateSQL, initState m) n).1 = GNode.executeSQL →
        ∃ g, (runFrom gen ex (GNode.generateSQL, initState m) n).2.generated_sql
              = some g ∧
          (validate 1000 g).is_valid = true ∧
          (runFrom gen ex (GNode.generateSQL, initState m) n).2.validated_sql
            = some (validate 1000 g).sanitized_query) ∧
    (∀ ex : String → Except String (List (List String)),
      (∀ n, ((runFrom genAlwaysDrop ex (GNode.generateSQL, initState 2) n).1
               == GNode.executeSQL) = false) ∧
      (runFrom genAlwaysDrop ex (GNode.generateSQL, initState 2) 4).1
        = GNode.terminate ∧
      (runFrom genAlwaysDrop ex (GNode.generateSQL, initState 2) 4).2.attempt_count
        = 2 ∧
      ∀ k, runFrom genAlwaysDrop ex (GNode.generateSQL, initState 2) (4 + k)
            = runFrom genAlwaysDrop ex (GNode.generateSQL, initState 2) 4) := by
  constructor
  · intro gen ex m n hx
    have hInv := stateInv_runFrom gen ex m n
    rcases hE : runFrom gen ex (GNode.generateSQL, initState m) n with ⟨node, s⟩
    rw [hE] at hx hInv
    simp only at hx
    subst hx
    exact hInv
  · intro ex
    refine ⟨?_, by rfl, by rfl,
      runFrom_terminate_fix genAlwaysDrop ex _ 4 (by rfl)⟩
    intro n
    rcases Nat.lt_or_ge n 4 with h | h
    · interval_cases n <;> rfl
    · obtain ⟨k, rfl⟩ : ∃ k, n = 4 + k := ⟨n - 4, by omega⟩
      rw [runFrom_terminate_fix genAlwaysDrop ex _ 4 (by rfl) k]
      rfl

/-- Claim C4, witnessed: a run that does reach the executor node, with a
valid generated query behind it. -/
theorem c4_execution_gated_and_attempts_bounded_witness :
    (runFrom (fun _ => "SELECT * FROM t LIMIT 10") (fun _ => Except.ok [])
        (GNode.generateSQL, initState 3) 2).1 = GNode.executeSQL ∧
    (runFrom (fun _ => "SELECT * FROM t LIMIT 10") (fun _ => Except.ok [])
        (GNode.generateSQL, initState 3) 2).2.generated_sql
      = some "SELECT * FROM t LIMIT 10" ∧
    (validate 1000 "SELECT * FROM t LIMIT 10").is_valid = true ∧
    (runFrom (fun _ => "SELECT * FROM t LIMIT 10") (fun _ => Except.ok [])
        (GNode.generateSQL, initState 3) 2).2.validated_sql
      = some (validate 1000 "SELECT * FROM t LIMIT 10").sanitized_query := by
  have h := c4_execution_gated_and_attempts_bounded.1
    (fun _ => "SELECT * FROM t LIMIT 10") (fun _ => Except.ok []) 3 2 (by rfl)
  obtain ⟨g, hg, hv, hs⟩ := h
  have hgen : (runFrom (fun _ => "SELECT * FROM t LIMIT 10")
      (fun _ => Except.ok []) (GNode.generateSQL, initState 3) 2).2.generated_sql
      = some "SELECT * FROM t LIMIT 10" := by rfl
  have hgeq : g = "SELECT * FROM t LIMIT 10" :=
    Option.some.inj (hg.symm.trans hgen)
  subst hgeq
  exact ⟨by rfl, hgen, hv, hs⟩

/-- Claim C8 counterexample: on an empty candidate with remaining attempt
budget the router answers `retry` (back to `generate_sql`), not the `end`
transition the claim asserts — the dedicated error is truthy, so the
no-error-no-query branch is unreachable here. -/
theorem c8_empty_candidate_goes_retry :
    (validateSqlNode
        { initState 3 with generated_sql := some "", attempt_count := 1 }).validated_sql
      = none ∧
    (validateSqlNode
        { initState 3 with generated_sql := some "", attempt_count := 1 }).sql_error
      = some "Nenhuma query foi gerada." ∧
    shouldContinueToExecute (validateSqlNode
        { initState 3 with generated_sql := some "", attempt_count := 1 })
      = "retry" :=
  ⟨by rfl, by rfl, by rfl⟩

/-- Claim C8 amended: on an empty (or null) candidate the validation node
short-circuits before consulting the validator — the outcome is the same
for any two verdict functions — recording the dedicated no-query error
with a null validated query; the router then re-enters the generation
loop while `attempt_count < max_attempts`, and terminates only once the
attempts are exhausted. -/
theorem c8_empty_candidate_shortcircuit (V W : String → Verdict)
    (s : AgentState) (h : s.generated_sql.getD "" = "") :
    validateSqlNodeG V s =
      { s with
        validated_sql := none
        sql_error := some "Nenhuma query foi gerada." } ∧
    validateSqlNodeG V s = validateSqlNodeG W s ∧
    shouldContinueToExecute (validateSqlNodeG V s)
      = (if s.attempt_count < s.max_attempts then "retry" else "end") := by
  have hV : validateSqlNodeG V s =
      { s with
        validated_sql := none
        sql_error := some "Nenhuma query foi gerada." } := by
    unfold validateSqlNodeG
    rw [if_pos h]
  have hW : validateSqlNodeG W s =
      { s with
        validated_sql := none
        sql_error := some "Nenhuma query foi gerada." } := by
    unfold validateSqlNodeG
    rw [if_pos h]
  refine ⟨hV, hV.trans hW.symm, ?_⟩
  rw [hV]
  exact route_of_error s _ (by rfl)

/-- The concrete state of the C8 witness: an empty candidate with one of
three attempts spent. -/
def emptyCandidateState : AgentState :=
  { initState 3 with generated_sql := some "", attempt_count := 1 }

/-- Claim C8 amended, witnessed at `emptyCandidateState`. -/
theorem c8_empty_candidate_shortcircuit_witness :
    emptyCandidateState.generated_sql.getD "" = "" ∧
    validateSqlNodeG (validate 1000) emptyCandidateState
      = { emptyCandidateState with
          validated_sql := none
          sql_error := some "Nenhuma query foi gerada." } ∧
    validateSqlNodeG (validate 1000) emptyCandidateState
      = validateSqlNodeG (fun _ => validate 1000 "SELECT 1") emptyCandidateState ∧
    shouldContinueToExecute (validateSqlNodeG (validate 1000) emptyCandidateState)
      = "retry" := by
  have h := c8_empty_candidate_shortcircuit (validate 1000)
    (fun _ => validate 1000 "SELECT 1") emptyCandidateState (by rfl)
  exact ⟨by rfl, h.1, h.2.1, h.2.2.trans (by rfl)⟩

/-- Claim C9: a failure raised by the execution collaborator is caught and
converted into terminal error-state data carrying the user-facing message
(`Erro ao executar query: ...`), and the graph wiring sends `execute_sql`
unconditionally to the final-answer node and then to `END` — never back
into the generate/validate loop, whatever the remaining attempt budget. -/
theorem c9_execution_error_caught (gen : Nat → String)
    (ex : String → Except String (List (List String)))
    (s t : AgentState) (e : String)
    (h : ex (s.validated_sql.getD "") = Except.error e) :
    executeSqlNode ex s =
      { s with
        query_results := none
        row_count := some 0
        sql_error := some ("Erro ao executar query: " ++ e) } ∧
    step gen ex (GNode.executeSQL, s) = (GNode.finalAnswer, executeSqlNode ex s) ∧
    step gen ex (GNode.finalAnswer, t) = (GNode.terminate, t) := by
  refine ⟨?_, rfl, rfl⟩
  unfold executeSqlNode
  rw [h]

/-- Claim C9, witnessed with an executor that always raises. -/
theorem c9_execution_error_caught_witness :
    (((fun _ => Except.error "backend unavailable") :
        String → Except String (List (List String)))
      ((initState 3).validated_sql.getD "") = Except.error "backend unavailable") ∧
    executeSqlNode (fun _ => Except.error "backend unavailable") (initState 3)
      = { initState 3 with
          query_results := none
          row_count := some 0
          sql_error := some ("Erro ao executar query: " ++ "backend unavailable") } ∧
    step (fun _ => "") (fun _ => Except.error "backend unavailable")
        (GNode.executeSQL, initState 3)
      = (GNode.finalAnswer,
         executeSqlNode (fun _ => Except.error "backend unavailable") (initState 3)) ∧
    step (fun _ => "") (fun _ => Except.error "backend unavailable")
        (GNode.finalAnswer, initState 3) = (GNode.terminate, initState 3) := by
  have h := c9_execution_error_caught (fun _ => "")
    (fun _ => Except.error "backend unavailable") (initState 3) (initState 3)
    "backend unavailable" (by rfl)
  exact ⟨by rfl, h.1, h.2.1, h.2.2⟩

end Agent
